import Mathlib

/-!
Shallow embedding of the time-reference scheduling and action-execution
engine of the eclipse_OZ repository (python/scheduling/time_calculator.py,
python/scheduling/action_types.py, python/scheduling/action_scheduler.py,
python/lua_simulator.py), together with theorems settling the frozen
claims about it.

Machine integers are modelled as Nat/Int (Python ints are unbounded, so no
wrapping is needed); Python `%` on ints agrees with Lean's Int.emod for a
positive modulus.  Python functions that raise ValueError are modelled as
Except String.  `datetime.time` is modelled as a record of hour/minute/
second fields together with a validity predicate (the Python constructor
enforces the ranges).
-/

namespace EclipseOZ

/-- Model of Python `datetime.time` (microseconds are never used by the
scheduling core). -/
structure Time where
  hour : Nat
  minute : Nat
  second : Nat
deriving DecidableEq, Repr

/-- Range invariant enforced by the `datetime.time` constructor. -/
def Time.Valid (t : Time) : Prop :=
  t.hour < 24 ∧ t.minute < 60 ∧ t.second < 60

instance (t : Time) : Decidable t.Valid := by
  unfold Time.Valid; infer_instance

/-- TimeCalculator.time_to_seconds (time_calculator.py lines 45-57):
`t.hour * 3600 + t.minute * 60 + t.second`. -/
def time_to_seconds (t : Time) : Nat :=
  t.hour * 3600 + t.minute * 60 + t.second

/-- TimeCalculator.seconds_to_time (time_calculator.py lines 59-78):
reduce mod 86400 (Python `%`, always nonnegative here) and decompose. -/
def seconds_to_time (seconds : Int) : Time :=
  let s : Nat := (seconds % 86400).toNat
  ⟨s / 3600, (s % 3600) / 60, s % 60⟩

/-- EclipseTimings (config/eclipse_config.py lines 14-21): the five
contact instants as times of day. -/
structure EclipseTimings where
  c1 : Time
  c2 : Time
  max : Time
  c3 : Time
  c4 : Time
deriving DecidableEq, Repr

/-- The `_ref_times_seconds` dict built in TimeCalculator.__init__
(time_calculator.py lines 37-43): keys C1, C2, Max, C3, C4. -/
def ref_times_seconds (et : EclipseTimings) (r : String) : Option Nat :=
  if r = "C1" then some (time_to_seconds et.c1)
  else if r = "C2" then some (time_to_seconds et.c2)
  else if r = "Max" then some (time_to_seconds et.max)
  else if r = "C3" then some (time_to_seconds et.c3)
  else if r = "C4" then some (time_to_seconds et.c4)
  else none

/-- TimeCalculator.convert_relative_time (time_calculator.py lines
80-118).  The reference is checked first, then the operator; the result
is reduced mod 86400 and rendered through seconds_to_time. -/
def convert_relative_time (et : EclipseTimings) (reference operator : String)
    (offset_time : Time) : Except String Time :=
  match ref_times_seconds et reference with
  | none => .error ("Unknown time reference: " ++ reference)
  | some ref_seconds =>
    if operator = "+" ∨ operator = "-" then
      let offset_seconds : Int := time_to_seconds offset_time
      let result_seconds : Int :=
        if operator = "+" then (ref_seconds : Int) + offset_seconds
        else (ref_seconds : Int) - offset_seconds
      .ok (seconds_to_time (result_seconds % 86400))
    else
      .error ("Invalid operator: " ++ operator ++ ", must be + or -")

/-- The contact table used in the Lua simulator: entries 0..4 of
`config_table` read by LuaSimulator.convert_time (lua_simulator.py lines
115-128). -/
structure LuaConfigTable where
  c1 : Int
  c2 : Int
  max : Int
  c3 : Int
  c4 : Int
deriving DecidableEq, Repr

/-- The operator branch of LuaSimulator.convert_time (lua_simulator.py
lines 133-143): asymmetric single correction.  `-` adds 86400 only when
the raw result is strictly negative; `+` subtracts 86400 only when the
raw result strictly exceeds 86400.  Unknown operators yield 0. -/
def lua_apply_op (time_ref : Int) (operation : String) (time_in : Int) : Int :=
  if operation = "-" then
    let time_out := time_ref - time_in
    if time_out < 0 then 86400 + time_out else time_out
  else if operation = "+" then
    let time_out := time_ref + time_in
    if time_out > 86400 then time_out - 86400 else time_out
  else 0

/-- LuaSimulator.convert_time (lua_simulator.py lines 115-147): look the
reference up in the table (unknown references yield 0), then apply the
operator with single-direction correction. -/
def lua_convert_time (tbl : LuaConfigTable) (reference operation : String)
    (time_in : Int) : Int :=
  if reference = "C1" then lua_apply_op tbl.c1 operation time_in
  else if reference = "C2" then lua_apply_op tbl.c2 operation time_in
  else if reference = "Max" then lua_apply_op tbl.max operation time_in
  else if reference = "C3" then lua_apply_op tbl.c3 operation time_in
  else if reference = "C4" then lua_apply_op tbl.c4 operation time_in
  else 0

/-- The concrete contact table of the end-to-end scenario:
C1=14:41:05, C2=16:02:49, Max=16:03:53, C3=16:04:58, C4=17:31:03. -/
def timings8 : EclipseTimings :=
  ⟨⟨14, 41, 5⟩, ⟨16, 2, 49⟩, ⟨16, 3, 53⟩, ⟨16, 4, 58⟩, ⟨17, 31, 3⟩⟩

/-- The same table in Lua-simulator form (seconds since midnight). -/
def luaTable8 : LuaConfigTable :=
  ⟨52865, 57769, 57833, 57898, 63063⟩

deriving instance DecidableEq for Except

/-- Helper: time_to_seconds of a valid time of day is below 86400. -/
theorem time_to_seconds_lt (t : Time) (h : t.Valid) : time_to_seconds t < 86400 := by
  obtain ⟨h1, h2, h3⟩ := h
  unfold time_to_seconds
  omega

/-- C1 counterexample: with the end-to-end contact table (C4 = 17:31:03 =
63063 s) and offset 23337 s = 06:28:57, the Lua-side asymmetric resolution
of C4 + offset yields 86400 (the strict `> 86400` test does not fire at
exactly 86400), while reduction modulo 86400, as performed by
TimeCalculator.convert_relative_time, yields 0 (midnight).  The two
implementations therefore do not agree on every reference, operator and
offset. -/
theorem lua_convert_time_midnight_counterexample :
    lua_convert_time luaTable8 "C4" "+" 23337 = 86400 ∧
    ((63063 : Int) + 23337) % 86400 = 0 ∧
    lua_convert_time luaTable8 "C4" "+" 23337 ≠ ((63063 : Int) + 23337) % 86400 ∧
    convert_relative_time timings8 "C4" "+" ⟨6, 28, 57⟩ = .ok ⟨0, 0, 0⟩ := by
  decide

/-- C1 (amended): for every base in [0, 86400) and offset in [0, 86400),
the `-` branch of the asymmetric resolution equals (base - offset) mod
86400; the `+` branch equals (base + offset) mod 86400 whenever
base + offset is not exactly 86400, and yields 86400 (congruent to, but
not equal to, the modular result 0) at that boundary; in all cases the
two implementations agree modulo 86400. -/
theorem lua_convert_time_agrees_mod (b o y2 y3 y4 y5 : Int)
    (hb0 : 0 ≤ b) (hb1 : b < 86400) (ho0 : 0 ≤ o) (ho1 : o < 86400) :
    lua_convert_time ⟨b, y2, y3, y4, y5⟩ "C1" "-" o = (b - o) % 86400 ∧
    (b + o ≠ 86400 →
      lua_convert_time ⟨b, y2, y3, y4, y5⟩ "C1" "+" o = (b + o) % 86400) ∧
    (b + o = 86400 → lua_convert_time ⟨b, y2, y3, y4, y5⟩ "C1" "+" o = 86400) ∧
    (lua_convert_time ⟨b, y2, y3, y4, y5⟩ "C1" "+" o) % 86400 = (b + o) % 86400 ∧
    (lua_convert_time ⟨b, y2, y3, y4, y5⟩ "C1" "-" o) % 86400 = (b - o) % 86400 := by
  simp only [lua_convert_time, lua_apply_op, String.reduceEq, reduceIte, if_true]
  refine ⟨?_, ?_, ?_, ?_, ?_⟩ <;> first
    | (intro h; split_ifs <;> omega)
    | (split_ifs <;> omega)

/-- Witness for the amended C1 theorem at base 63063, offset 100. -/
theorem lua_convert_time_agrees_mod_witness :
    lua_convert_time ⟨63063, 0, 0, 0, 0⟩ "C1" "-" 100 = ((63063 : Int) - 100) % 86400 :=
  (lua_convert_time_agrees_mod 63063 100 0 0 0 0 (by decide) (by decide)
    (by decide) (by decide)).1

/-- C2: for every reference present in the contact table,
convert_relative_time applies the operator to the looked-up base and the
offset converted to seconds, reduces mod 86400 and renders the result as
a time of day; a zero offset returns exactly the table entry; with the
end-to-end table, C4 + 7 h resolves to 00:31:03 and C1 - 15 h resolves
to 23:41:05. -/
theorem convert_relative_time_spec (et : EclipseTimings) (r : String) (base : Nat)
    (off : Time) (hr : ref_times_seconds et r = some base) :
    convert_relative_time et r "+" off =
      .ok (seconds_to_time (((base : Int) + time_to_seconds off) % 86400)) ∧
    convert_relative_time et r "-" off =
      .ok (seconds_to_time (((base : Int) - time_to_seconds off) % 86400)) ∧
    (time_to_seconds off = 0 → base < 86400 →
      convert_relative_time et r "+" off = .ok (seconds_to_time base) ∧
      convert_relative_time et r "-" off = .ok (seconds_to_time base) ∧
      time_to_seconds (seconds_to_time base) = base) ∧
    convert_relative_time timings8 "C4" "+" ⟨7, 0, 0⟩ = .ok ⟨0, 31, 3⟩ ∧
    convert_relative_time timings8 "C1" "-" ⟨15, 0, 0⟩ = .ok ⟨23, 41, 5⟩ := by
  refine ⟨?_, ?_, ?_, by decide, by decide⟩
  · simp [convert_relative_time, hr]
  · simp [convert_relative_time, hr]
  · intro h0 hlt
    have hmod : ((base : Int)) % 86400 = (base : Int) := by omega
    refine ⟨?_, ?_, ?_⟩
    · simp [convert_relative_time, hr, h0, hmod]
    · simp [convert_relative_time, hr, h0, hmod]
    · have hb : ((base : Int) % 86400).toNat = base := by omega
      simp only [seconds_to_time, time_to_seconds, hb]
      omega

/-- Witness for C2 at the end-to-end table, reference C4, zero offset. -/
theorem convert_relative_time_spec_witness :
    convert_relative_time timings8 "C4" "+" ⟨0, 0, 0⟩ =
      .ok (seconds_to_time ((63063 : Nat) : Int)) :=
  ((convert_relative_time_spec timings8 "C4" 63063 ⟨0, 0, 0⟩ (by decide)).2.2.1
    (by decide) (by decide)).1

/-- C7: the conversion round-trip seconds_to_time of time_to_seconds is
the identity on every valid time of day. -/
theorem seconds_to_time_round_trip (h m s : Nat)
    (hh : h < 24) (hm : m < 60) (hs : s < 60) :
    seconds_to_time (time_to_seconds ⟨h, m, s⟩) = ⟨h, m, s⟩ := by
  have hlt : time_to_seconds ⟨h, m, s⟩ < 86400 := time_to_seconds_lt _ ⟨hh, hm, hs⟩
  simp only [seconds_to_time, time_to_seconds] at *
  have hb : (((h * 3600 + m * 60 + s : Nat) : Int) % 86400).toNat
      = h * 3600 + m * 60 + s := by omega
  rw [hb]
  simp only [Time.mk.injEq]
  omega

/-- Witness for C7 at 23:59:59. -/
theorem seconds_to_time_round_trip_witness :
    seconds_to_time (time_to_seconds ⟨23, 59, 59⟩) = ⟨23, 59, 59⟩ :=
  seconds_to_time_round_trip 23 59 59 (by decide) (by decide) (by decide)

/-- C8: convert_relative_time rejects every reference outside
C1/C2/Max/C3/C4 with an unknown-reference error, rejects every operator
other than + and - (even for a known reference) with an invalid-operator
error, and in either case produces no result time. -/
theorem convert_relative_time_errors (et : EclipseTimings) (r op : String)
    (off t : Time) :
    (ref_times_seconds et r = none ↔
      r ∉ (["C1", "C2", "Max", "C3", "C4"] : List String)) ∧
    (r ∉ (["C1", "C2", "Max", "C3", "C4"] : List String) →
      convert_relative_time et r op off = .error ("Unknown time reference: " ++ r)) ∧
    (r ∈ (["C1", "C2", "Max", "C3", "C4"] : List String) → op ≠ "+" → op ≠ "-" →
      convert_relative_time et r op off =
        .error ("Invalid operator: " ++ op ++ ", must be + or -")) ∧
    (∀ e, convert_relative_time et r op off = .error e →
      convert_relative_time et r op off ≠ .ok t) := by
  refine ⟨?_, ?_, ?_, ?_⟩
  · unfold ref_times_seconds
    split_ifs <;> simp_all
  · intro hmem
    have hnone : ref_times_seconds et r = none := by
      unfold ref_times_seconds
      split_ifs <;> simp_all
    simp [convert_relative_time, hnone]
  · intro hmem hp hmns
    have hop : ¬(op = "+" ∨ op = "-") := by
      rintro (h | h) <;> contradiction
    simp only [List.mem_cons, List.mem_singleton, List.not_mem_nil, or_false] at hmem
    rcases hmem with h | h | h | h | h <;> subst h <;>
      simp [convert_relative_time, ref_times_seconds, hop]
  · intro e he
    rw [he]
    intro hcontra
    exact Except.noConfusion hcontra

/-- Witness for C8: unknown reference C5 with unknown operator. -/
theorem convert_relative_time_errors_witness :
    convert_relative_time timings8 "C5" "*" ⟨0, 0, 0⟩ =
      .error ("Unknown time reference: " ++ "C5") :=
  (convert_relative_time_errors timings8 "C5" "*" ⟨0, 0, 0⟩ ⟨0, 0, 0⟩).2.1
    (by decide)

/-! ### Action model (scheduling/action_types.py, config/eclipse_config.py) -/

/-- ActionConfig (config/eclipse_config.py lines 25-38).  Fields that
Python may leave as None are Options; `validate` checks them with
`is not None`, so start_time/time_ref/start_operator are Options even
though the dataclass annotation is non-optional (Python does not enforce
annotations).  Floats are modelled as rationals. -/
structure ActionConfig where
  action_type : String
  time_ref : Option String
  start_operator : Option String
  start_time : Option Time
  end_operator : Option String := none
  end_time : Option Time := none
  interval_or_count : Option ℚ := none
  aperture : Option ℚ := none
  iso : Option Nat := none
  shutter_speed : Option ℚ := none
  mlu_delay : Int := 0
deriving DecidableEq, Repr

/-- Python truthiness of an optional int: None and 0 are falsy. -/
def py_truthy_nat : Option Nat → Bool
  | some n => n ≠ 0
  | none => false

/-- Python truthiness of an optional float: None and 0.0 are falsy. -/
def py_truthy_rat : Option ℚ → Bool
  | some q => q ≠ 0
  | none => false

/-- Python int() truncation toward zero on a float/rational. -/
def pyInt (q : ℚ) : Int :=
  if q < 0 then ⌈q⌉ else ⌊q⌋

/-- PhotoAction.validate (action_types.py lines 41-49): the action type
must be Photo and start_time/time_ref/start_operator must be present.
No condition on the end-time fields is checked. -/
def photo_validate (c : ActionConfig) : Bool :=
  if c.action_type ≠ "Photo" then false
  else c.start_time.isSome && c.time_ref.isSome && c.start_operator.isSome

/-- LoopAction.validate (action_types.py lines 74-82). -/
def loop_validate (c : ActionConfig) : Bool :=
  if c.action_type ≠ "Boucle" then false
  else c.start_time.isSome && c.end_time.isSome &&
    (match c.interval_or_count with
     | some q => decide (0 < q)
     | none => false)

/-- IntervalAction.validate (action_types.py lines 116-124). -/
def interval_validate (c : ActionConfig) : Bool :=
  if c.action_type ≠ "Interval" then false
  else c.start_time.isSome && c.end_time.isSome &&
    (match c.interval_or_count with
     | some q => decide (0 < q)
     | none => false)

/-- The three action variants (ActionType enum, action_types.py 13-17). -/
inductive ActionKind
  | photo
  | loop
  | interval
deriving DecidableEq, Repr

/-- create_action factory (action_types.py lines 155-183): dispatch on
the action_type tag (unknown tags raise ValueError), run the variant
validator, raise ValueError when it fails, otherwise return the action.
All of this happens before any scheduling, waiting or device call. -/
def create_action (c : ActionConfig) : Except String ActionKind :=
  if c.action_type = "Photo" then
    if photo_validate c then .ok .photo
    else .error ("Invalid configuration for " ++ c.action_type ++ " action")
  else if c.action_type = "Boucle" then
    if loop_validate c then .ok .loop
    else .error ("Invalid configuration for " ++ c.action_type ++ " action")
  else if c.action_type = "Interval" then
    if interval_validate c then .ok .interval
    else .error ("Invalid configuration for " ++ c.action_type ++ " action")
  else .error ("Unknown action type: " ++ c.action_type)

/-- Zero-padded two-digit rendering, as in str(datetime.time). -/
def pad2 (n : Nat) : String :=
  if n < 10 then "0" ++ toString n else toString n

/-- str() of a datetime.time: HH:MM:SS. -/
def timeStr (t : Time) : String :=
  pad2 t.hour ++ ":" ++ pad2 t.minute ++ ":" ++ pad2 t.second

/-- str() of an optional time (Python prints None as the word None). -/
def optTimeStr : Option Time → String
  | some t => timeStr t
  | none => "None"

/-- str() of an optional string field. -/
def optStr : Option String → String
  | some s => s
  | none => "None"

/-- Rendering of a float in an f-string.  Integer-valued floats print
with a trailing .0 as in Python; for non-integer values the exact float
decimal expansion is approximated by the rational's own rendering (no
claim evaluates this branch). -/
def ratPyStr (q : ℚ) : String :=
  if q.den = 1 then toString q.num ++ ".0" else toString q

/-- The settings_desc list built identically by PhotoAction,
LoopAction and IntervalAction get_description (action_types.py lines
58-64, 89-95, 131-137): one entry per truthy setting. -/
def settings_desc (c : ActionConfig) : List String :=
  (if py_truthy_nat c.iso then ["ISO " ++ toString (c.iso.getD 0)] else []) ++
  (if py_truthy_rat c.aperture then ["f/" ++ ratPyStr (c.aperture.getD 0)] else []) ++
  (if py_truthy_rat c.shutter_speed
    then [ratPyStr (c.shutter_speed.getD 0) ++ "s"] else [])

/-- Python " ".join on a list of strings. -/
def join_sp : List String → String
  | [] => ""
  | [a] => a
  | a :: b :: rest => a ++ " " ++ join_sp (b :: rest)

/-- The settings part of every get_description: the joined list, or the
words default settings when nothing is set (action_types.py line 66). -/
def settings_str (c : ActionConfig) : String :=
  if (settings_desc c).isEmpty then "default settings"
  else join_sp (settings_desc c)

/-- The start-time basis used by all three descriptions: absolute when
time_ref is the - marker, otherwise reference operator offset. -/
def start_basis (c : ActionConfig) : String :=
  if c.time_ref = some "-" then optTimeStr c.start_time
  else optStr c.time_ref ++ " " ++ optStr c.start_operator ++ " " ++ optTimeStr c.start_time

/-- The end-time basis (always reference operator offset). -/
def end_basis (c : ActionConfig) : String :=
  optStr c.time_ref ++ " " ++ optStr c.end_operator ++ " " ++ optTimeStr c.end_time

/-- PhotoAction.get_description (action_types.py lines 51-68). -/
def photo_get_description (c : ActionConfig) : String :=
  "Photo at " ++ start_basis c ++ " with " ++ settings_str c

/-- LoopAction.get_description (action_types.py lines 84-100). -/
def loop_get_description (c : ActionConfig) : String :=
  "Loop from " ++ start_basis c ++ " to " ++ end_basis c ++
    " every " ++ (match c.interval_or_count with
                  | some q => ratPyStr q
                  | none => "None") ++ "s with " ++ settings_str c

/-- IntervalAction.get_description (action_types.py lines 126-142). -/
def interval_get_description (c : ActionConfig) : String :=
  "Interval: " ++ (match c.interval_or_count with
                   | some q => toString (pyInt q)
                   | none => "None") ++ " photos from " ++ start_basis c ++
    " to " ++ end_basis c ++ " with " ++ settings_str c

/-- CameraSettings (config/eclipse_config.py lines 59-63). -/
structure CameraSettings where
  iso : Nat
  aperture : String
  shutter : String
deriving DecidableEq, Repr

/-- format_gphoto2_aperture (hardware/camera_controller.py lines
387-400): integer f-numbers render without a decimal part; the
one-decimal branch is approximated by the rational rendering (no claim
evaluates it). -/
def format_gphoto2_aperture (f : ℚ) : String :=
  if f.den = 1 then "f/" ++ toString f.num
  else "f/" ++ toString f

/-- format_gphoto2_shutter (hardware/camera_controller.py lines
403-424); the fractional-format branches are approximated by the
rational rendering (no claim evaluates them). -/
def format_gphoto2_shutter (s : ℚ) : String :=
  if 1 ≤ s then
    if s.den = 1 then toString s.num else toString s
  else
    let f := 1 / s
    if f.den = 1 then "1/" ++ toString f.num else "1/" ++ toString f

/-- The camera settings built by
ActionScheduler._configure_cameras_for_action (action_scheduler.py
lines 335-339): `action.iso or 1600`, falsy aperture becomes f/8,
falsy shutter becomes 1/125. -/
def configure_settings (c : ActionConfig) : CameraSettings :=
  { iso := if py_truthy_nat c.iso then c.iso.getD 0 else 1600
    aperture := if py_truthy_rat c.aperture
      then format_gphoto2_aperture (c.aperture.getD 0) else "f/8"
    shutter := if py_truthy_rat c.shutter_speed
      then format_gphoto2_shutter (c.shutter_speed.getD 0) else "1/125" }

/-- Associativity of string append (via the underlying char lists). -/
theorem str_append_assoc (a b c : String) : a ++ b ++ c = a ++ (b ++ c) := by
  apply String.ext
  simp [String.data_append, List.append_assoc]

/-- Joining a nonempty list starts with its head. -/
theorem join_sp_cons_exists (a : String) (l : List String) :
    ∃ t, join_sp (a :: l) = a ++ t := by
  cases l with
  | nil => exact ⟨"", (String.append_empty a).symm⟩
  | cons b rest =>
    refine ⟨" " ++ join_sp (b :: rest), ?_⟩
    rw [join_sp]
    exact str_append_assoc a " " (join_sp (b :: rest))

/-- A Photo configuration whose end-time fields are set. -/
def photoWithEndFields : ActionConfig :=
  { action_type := "Photo", time_ref := some "C1", start_operator := some "+",
    start_time := some ⟨14, 0, 0⟩, end_operator := some "+",
    end_time := some ⟨15, 0, 0⟩ }

/-- C6 counterexample: a Photo configuration with end_operator and
end_time set is accepted by create_action (PhotoAction.validate never
checks that the end-time fields are absent), contradicting the claim
that a Photo spec is accepted only when no end-time fields are set. -/
theorem create_action_photo_end_fields_counterexample :
    create_action photoWithEndFields = .ok .photo ∧
    photoWithEndFields.end_time ≠ none ∧
    photoWithEndFields.end_operator ≠ none := by decide

/-- C6 (amended): create_action returns an action exactly when the
variant validator passes and reports a ValueError otherwise, before any
scheduling: a Photo spec is accepted exactly when time_ref, start
operator and start time are present (end-time fields are not checked
and may be set); a Boucle or Interval spec is accepted exactly when
start and end times are present and the third numeric field is strictly
positive; unknown action types are rejected. -/
theorem create_action_amended (c : ActionConfig) :
    (c.action_type = "Photo" →
      ((∃ k, create_action c = .ok k) ↔
        (c.start_time ≠ none ∧ c.time_ref ≠ none ∧ c.start_operator ≠ none))) ∧
    ((c.action_type = "Boucle" ∨ c.action_type = "Interval") →
      ((∃ k, create_action c = .ok k) ↔
        (c.start_time ≠ none ∧ c.end_time ≠ none ∧
          ∃ q, c.interval_or_count = some q ∧ 0 < q))) ∧
    (c.action_type ≠ "Photo" → c.action_type ≠ "Boucle" → c.action_type ≠ "Interval" →
      create_action c = .error ("Unknown action type: " ++ c.action_type)) ∧
    (∀ e, create_action c = .error e → ∀ k, create_action c ≠ .ok k) := by
  refine ⟨?_, ?_, ?_, ?_⟩
  · intro h
    simp only [create_action, photo_validate, h, reduceIte, ne_eq, not_true_eq_false,
      if_false]
    rcases hs : c.start_time with _ | st <;>
      rcases hr : c.time_ref with _ | tr <;>
      rcases ho : c.start_operator with _ | op <;>
        simp
  · rintro (h | h) <;>
    · simp only [create_action, loop_validate, interval_validate, h, String.reduceEq,
        reduceIte, ne_eq, not_true_eq_false, if_false]
      rcases hs : c.start_time with _ | st <;>
        rcases he : c.end_time with _ | et <;>
        rcases hi : c.interval_or_count with _ | q <;>
          simp [decide_eq_true_eq] <;> split_ifs <;> simp_all
  · intro h1 h2 h3
    simp [create_action, h1, h2, h3]
  · intro e he k
    rw [he]
    intro hcontra
    exact Except.noConfusion hcontra

/-- Witness for the amended C6 theorem: the Photo configuration with end
fields set is accepted. -/
theorem create_action_amended_witness :
    ∃ k, create_action photoWithEndFields = .ok k :=
  ((create_action_amended photoWithEndFields).1 rfl).mpr
    ⟨by decide, by decide, by decide⟩

/-- A Photo configuration with no camera settings set. -/
def photoUnsetSettings : ActionConfig :=
  { action_type := "Photo", time_ref := some "C1", start_operator := some "+",
    start_time := some ⟨16, 3, 53⟩ }

/-- C9 counterexample: for a photo action with no camera settings set,
the logged description reads with default settings and contains neither
ISO 1600 nor f/8 nor 1/125; the numeric defaults are applied only by
_configure_cameras_for_action. -/
theorem photo_description_defaults_counterexample :
    photo_get_description photoUnsetSettings =
      "Photo at C1 + 16:03:53 with default settings" ∧
    ¬ ("1600".data <:+: (photo_get_description photoUnsetSettings).data) ∧
    ¬ ("f/8".data <:+: (photo_get_description photoUnsetSettings).data) ∧
    ¬ ("1/125".data <:+: (photo_get_description photoUnsetSettings).data) ∧
    configure_settings photoUnsetSettings = ⟨1600, "f/8", "1/125"⟩ := by decide

/-- C9 (amended): every variant description includes the time basis
(absolute start time when time_ref is the - marker, otherwise reference,
operator and offset) and the explicitly set camera settings (the ISO
appears as ISO n when set); settings that are all unset are displayed as
the words default settings, while the numeric defaults ISO 1600, f/8
and 1/125 are applied when the cameras are configured for the action,
not in the description. -/
theorem action_description_amended (c : ActionConfig) (r : String) :
    (c.time_ref = some "-" →
      ∃ s, photo_get_description c = "Photo at " ++ optTimeStr c.start_time ++ s) ∧
    (c.time_ref = some r → r ≠ "-" →
      ∃ s, photo_get_description c =
        "Photo at " ++ r ++ " " ++ optStr c.start_operator ++ " " ++
          optTimeStr c.start_time ++ s) ∧
    (c.iso = none → c.aperture = none → c.shutter_speed = none →
      settings_str c = "default settings" ∧
      ∃ p, photo_get_description c = p ++ "default settings") ∧
    (∀ n, c.iso = some n → n ≠ 0 →
      ∃ s, settings_str c = "ISO " ++ toString n ++ s) ∧
    (∃ p, loop_get_description c = "Loop from " ++ start_basis c ++ " to " ++
      end_basis c ++ p ++ settings_str c) ∧
    (∃ p, interval_get_description c = "Interval: " ++ p ++ " photos from " ++
      start_basis c ++ " to " ++ end_basis c ++ " with " ++ settings_str c) ∧
    (c.iso = none → c.aperture = none → c.shutter_speed = none →
      configure_settings c = ⟨1600, "f/8", "1/125"⟩) := by
  refine ⟨?_, ?_, ?_, ?_, ?_, ?_, ?_⟩
  · intro h
    exact ⟨" with " ++ settings_str c, by
      simp only [photo_get_description, start_basis, h, reduceIte, str_append_assoc]⟩
  · intro h hne
    refine ⟨" with " ++ settings_str c, ?_⟩
    have hbasis : start_basis c =
        r ++ " " ++ optStr c.start_operator ++ " " ++ optTimeStr c.start_time := by
      simp [start_basis, h, optStr, hne]
    rw [photo_get_description, hbasis]
    simp only [str_append_assoc]
  · intro h1 h2 h3
    have hempty : settings_desc c = [] := by
      simp [settings_desc, h1, h2, h3, py_truthy_nat, py_truthy_rat]
    have hstr : settings_str c = "default settings" := by
      simp [settings_str, hempty]
    exact ⟨hstr, ⟨"Photo at " ++ start_basis c ++ " with ",
      by rw [photo_get_description, hstr]⟩⟩
  · intro n hn hne
    have hdesc : settings_desc c = ("ISO " ++ toString n) ::
        ((if py_truthy_rat c.aperture then ["f/" ++ ratPyStr (c.aperture.getD 0)] else []) ++
         (if py_truthy_rat c.shutter_speed
           then [ratPyStr (c.shutter_speed.getD 0) ++ "s"] else [])) := by
      simp [settings_desc, hn, py_truthy_nat, hne]
    rw [settings_str, hdesc]
    rw [if_neg (by simp)]
    exact join_sp_cons_exists _ _
  · exact ⟨" every " ++ (match c.interval_or_count with
      | some q => ratPyStr q
      | none => "None") ++ "s with ", by
        rw [loop_get_description]
        simp only [str_append_assoc]⟩
  · exact ⟨(match c.interval_or_count with
      | some q => toString (pyInt q)
      | none => "None"), rfl⟩
  · intro h1 h2 h3
    simp [configure_settings, h1, h2, h3, py_truthy_nat, py_truthy_rat]

/-- Witness for the amended C9 theorem: the unset-settings photo action
shows the words default settings. -/
theorem action_description_amended_witness :
    settings_str photoUnsetSettings = "default settings" ∧
    ∃ p, photo_get_description photoUnsetSettings = p ++ "default settings" :=
  (action_description_amended photoUnsetSettings "C1").2.2.1 rfl rfl rfl

/-! ### Scheduler/executor (scheduling/action_scheduler.py) -/

/-- Execution statistics tracked by ActionScheduler (action_scheduler.py
lines 44-47 and 382-394). -/
structure Stats where
  actions_executed : Nat
  photos_taken : Nat
  execution_errors : Nat
deriving DecidableEq, Repr

/-- Per-device capture outcomes of camera_manager.capture_all: one
optional artifact per device, never silently dropped.  The count of
successful captures mirrors
`sum(1 for result in capture_results.values() if result is not None)`
(action_scheduler.py line 124). -/
def successful_captures (results : List (Option Nat)) : Nat :=
  (results.filter Option.isSome).length

/-- execute_photo_action (action_scheduler.py lines 90-138), given the
outcome of camera configuration and the per-device capture map: if the
configuration step returned False the action fails before capturing;
otherwise photos_taken grows by the number of devices that returned a
result and the action succeeds exactly when at least one did.  Returns
the success flag and the new photos_taken counter. -/
def execute_photo_action (configOk : Bool) (captureResults : List (Option Nat))
    (photos_taken : Nat) : Bool × Nat :=
  if !configOk then (false, photos_taken)
  else
    let succ := successful_captures captureResults
    (decide (0 < succ), photos_taken + succ)

/-- execute_action (action_scheduler.py lines 49-88): build and validate
the action (a ValueError there is caught and counted as an execution
error), run the routed execution method (abstracted as its effect on
photos_taken plus a success flag), then bump actions_executed on success
or execution_errors on failure. -/
def execute_action_with (s : Stats) (run : Nat → Bool × Nat)
    (c : ActionConfig) : Bool × Stats :=
  match create_action c with
  | .error _ => (false, { s with execution_errors := s.execution_errors + 1 })
  | .ok _ =>
    let out := run s.photos_taken
    if out.1 then
      (true, { s with photos_taken := out.2,
                      actions_executed := s.actions_executed + 1 })
    else
      (false, { s with photos_taken := out.2,
                       execution_errors := s.execution_errors + 1 })

/-- C5: a photo action succeeds iff at least one device returned a
non-null result; photos_taken grows by exactly the number of successful
devices (partial failure still succeeds); with zero successes the action
is failed, execution_errors grows by one and photos_taken is
unchanged. -/
theorem photo_action_success_iff (c : ActionConfig) (results : List (Option Nat))
    (s : Stats) (hc : create_action c = .ok .photo) :
    ((execute_action_with s (execute_photo_action true results) c).1 = true ↔
      0 < successful_captures results) ∧
    (execute_action_with s (execute_photo_action true results) c).2.photos_taken =
      s.photos_taken + successful_captures results ∧
    (successful_captures results = 0 →
      (execute_action_with s (execute_photo_action true results) c).1 = false ∧
      (execute_action_with s (execute_photo_action true results) c).2.execution_errors =
        s.execution_errors + 1 ∧
      (execute_action_with s (execute_photo_action true results) c).2.photos_taken =
        s.photos_taken) ∧
    (0 < successful_captures results →
      (execute_action_with s (execute_photo_action true results) c).2.execution_errors =
        s.execution_errors ∧
      (execute_action_with s (execute_photo_action true results) c).2.actions_executed =
        s.actions_executed + 1) := by
  simp only [execute_action_with, execute_photo_action, hc, Bool.not_true, if_false]
  refine ⟨?_, ?_, ?_, ?_⟩ <;> split_ifs <;> simp_all <;> omega

/-- Witness for C5: two devices, one failing, still a success with one
photo counted. -/
theorem photo_action_success_iff_witness :
    (execute_action_with ⟨0, 0, 0⟩
      (execute_photo_action true [some 7, none]) photoUnsetSettings).1 = true :=
  ((photo_action_success_iff photoUnsetSettings [some 7, none] ⟨0, 0, 0⟩
    (by decide)).1).mpr (by decide)

/-- get_time_difference (time_calculator.py lines 192-210): signed gap
with next-day correction when the second time is earlier. -/
def get_time_difference (t1 t2 : Time) : Int :=
  let s1 : Int := time_to_seconds t1
  let s2 : Int := time_to_seconds t2
  if s2 < s1 then s2 + 86400 - s1 else s2 - s1

/-- Outcome of execute_interval_action (action_scheduler.py lines
218-293).  invalidDuration is the return False at line 237-239, which
happens before _configure_cameras_for_action, wait_until or any capture;
delegatedToPhoto is the photo_count <= 1 branch; ran carries the derived
cadence and the absolute scheduled capture slots
interval_start_time + i * interval (lines 261-286). -/
inductive IntervalOutcome
  | invalidDuration
  | delegatedToPhoto
  | ran (interval : ℚ) (slots : List ℚ)
deriving DecidableEq, Repr

/-- execute_interval_action (action_scheduler.py lines 218-293) as a
schedule: photo_count is int(interval_or_count); a non-positive total
duration fails immediately; a count of at most 1 delegates to
execute_photo_action; otherwise the interval is
total_duration / (photo_count - 1) (exact rational division modelling
Python float division), and capture i is scheduled at
wallStart + i * interval for i = 0 .. photo_count - 1. -/
def execute_interval_action (startT endT : Time) (ioc : ℚ) (wallStart : ℚ) :
    IntervalOutcome :=
  let photo_count := pyInt ioc
  let total_duration := get_time_difference startT endT
  if total_duration ≤ 0 then .invalidDuration
  else if photo_count ≤ 1 then .delegatedToPhoto
  else
    let interval_seconds : ℚ := (total_duration : ℚ) / ((photo_count : ℚ) - 1)
    .ran interval_seconds
      ((List.range photo_count.toNat).map
        (fun i : Nat => wallStart + (i : ℚ) * interval_seconds))

/-- C3: with positive resolved duration and photo count above 1, the
interval action runs with cadence duration / (count - 1), schedules
capture i at start + i * interval, fires exactly count captures, and
its first and last slots are the start and the end; a count of at most
1 is executed as a single photo action; a non-positive duration fails
the action before any camera configuration or capture. -/
theorem interval_action_spec (startT endT : Time) (ioc : ℚ) (w : ℚ) :
    (get_time_difference startT endT ≤ 0 →
      execute_interval_action startT endT ioc w = .invalidDuration) ∧
    (0 < get_time_difference startT endT → pyInt ioc ≤ 1 →
      execute_interval_action startT endT ioc w = .delegatedToPhoto) ∧
    (0 < get_time_difference startT endT → 1 < pyInt ioc →
      ∃ interval slots,
        execute_interval_action startT endT ioc w = .ran interval slots ∧
        interval = (get_time_difference startT endT : ℚ) / ((pyInt ioc : ℚ) - 1) ∧
        slots.length = (pyInt ioc).toNat ∧
        (∀ i : Nat, i < (pyInt ioc).toNat →
          slots[i]? = some (w + (i : ℚ) * interval)) ∧
        slots.head? = some w ∧
        slots.getLast? = some (w + (get_time_difference startT endT : ℚ))) := by
  refine ⟨?_, ?_, ?_⟩
  · intro hd
    simp [execute_interval_action, hd]
  · intro hd hcount
    rw [execute_interval_action]
    rw [if_neg (by omega), if_pos hcount]
  · intro hd hcount
    set n := pyInt ioc with hn
    set d := get_time_difference startT endT with hdd
    have hrun : execute_interval_action startT endT ioc w =
        .ran ((d : ℚ) / ((n : ℚ) - 1))
          ((List.range n.toNat).map
            (fun i : Nat => w + (i : ℚ) * ((d : ℚ) / ((n : ℚ) - 1)))) := by
      rw [execute_interval_action]
      rw [if_neg (by omega), if_neg (by omega)]
    have hidx : ∀ i : Nat, i < n.toNat →
        ((List.range n.toNat).map
          (fun i : Nat => w + (i : ℚ) * ((d : ℚ) / ((n : ℚ) - 1))))[i]? =
          some (w + (i : ℚ) * ((d : ℚ) / ((n : ℚ) - 1))) := by
      intro i hi
      simp [List.getElem?_map, List.getElem?_range, hi]
    have h0 : 0 < n.toNat := by omega
    refine ⟨(d : ℚ) / ((n : ℚ) - 1), _, hrun, rfl, by simp, hidx, ?_, ?_⟩
    · rw [List.head?_eq_getElem?, hidx 0 h0]
      norm_num
    · have hlen : ((List.range n.toNat).map
          (fun i : Nat => w + (i : ℚ) * ((d : ℚ) / ((n : ℚ) - 1)))).length = n.toNat := by simp
      rw [List.getLast?_eq_getElem?, hlen, hidx (n.toNat - 1) (by omega)]
      congr 1
      have hnn : (0 : Int) ≤ n := by omega
      have hq : ((n.toNat : ℚ)) = ((n : Int) : ℚ) := by
        rw [← Int.cast_natCast, Int.toNat_of_nonneg hnn]
      have hcast : ((n.toNat - 1 : Nat) : ℚ) = ((n : Int) : ℚ) - 1 := by
        rw [Nat.cast_sub (by omega : 1 ≤ n.toNat), hq]
        norm_num
      have hne : (((n : Int) : ℚ) - 1) ≠ 0 := by
        have h1 : (1 : ℚ) < ((n : Int) : ℚ) := by exact_mod_cast hcount
        intro hzero
        nlinarith
      rw [hcast, mul_comm, div_mul_cancel₀ _ hne]

/-- Witness for C3: the §8 scenario, 600 s duration and 10 photos, runs
with cadence 600/9 and first and last slots at the endpoints. -/
theorem interval_action_spec_witness :
    ∃ interval slots,
      execute_interval_action ⟨10, 0, 0⟩ ⟨10, 10, 0⟩ 10 0 = .ran interval slots ∧
      interval = (get_time_difference ⟨10, 0, 0⟩ ⟨10, 10, 0⟩ : ℚ) /
        ((pyInt 10 : ℚ) - 1) ∧
      slots.length = (pyInt (10 : ℚ)).toNat ∧
      (∀ i : Nat, i < (pyInt (10 : ℚ)).toNat →
        slots[i]? = some (0 + (i : ℚ) * interval)) ∧
      slots.head? = some 0 ∧
      slots.getLast? = some (0 + (get_time_difference ⟨10, 0, 0⟩ ⟨10, 10, 0⟩ : ℚ)) :=
  (interval_action_spec ⟨10, 0, 0⟩ ⟨10, 10, 0⟩ 10 0).2.2 (by decide) (by decide)

/-- State of the while-loop in execute_loop_action (action_scheduler.py
lines 173-209): capture iterations so far, photos counted, the absolute
wall time of the next scheduled capture, and the index of the next clock
poll.  The loop touches no error counter. -/
structure LoopState where
  captureCount : Nat
  photosTaken : Nat
  nextCapture : ℚ
  poll : Nat
deriving DecidableEq, Repr

/-- One iteration of the loop body (action_scheduler.py lines 177-209):
read the time of day (stream tod) and stop when it has reached the end
time (none models the break); otherwise capture when the wall clock
(stream wall) has reached the next scheduled capture, counting the
per-device successes of that capture (stream succ, indexed by capture
number) into photosTaken and advancing the schedule by the interval;
then sleep briefly and poll again. -/
def loopStep (endSec : Nat) (interval : ℚ) (tod : Nat → Nat) (wall : Nat → ℚ)
    (succ : Nat → Nat) (s : LoopState) : Option LoopState :=
  if endSec ≤ tod s.poll then none
  else if s.nextCapture ≤ wall s.poll then
    some { captureCount := s.captureCount + 1,
           photosTaken := s.photosTaken + succ s.captureCount,
           nextCapture := s.nextCapture + interval,
           poll := s.poll + 1 }
  else some { s with poll := s.poll + 1 }

/-- Run the loop until the break; fuel bounds the number of polls (the
Python loop is unbounded in the source, fuel exhaustion yields none). -/
def loopRun (endSec : Nat) (interval : ℚ) (tod : Nat → Nat) (wall : Nat → ℚ)
    (succ : Nat → Nat) : Nat → LoopState → Option LoopState
  | 0, _ => none
  | fuel + 1, s =>
    match loopStep endSec interval tod wall succ s with
    | none => some s
    | some s2 => loopRun endSec interval tod wall succ fuel s2

/-- Result of execute_loop_action (action_scheduler.py lines 140-216):
invalidInterval is the return False at lines 161-163 (before camera
configuration); ran carries the returned success flag
(capture_count > 0, line 212) with the final counters. -/
inductive LoopOutcome
  | invalidInterval
  | ran (success : Bool) (captureCount : Nat) (photosTaken : Nat)
  | outOfFuel
deriving DecidableEq, Repr

/-- execute_loop_action (action_scheduler.py lines 140-216): a
non-positive interval fails before configuration; otherwise the loop
starts at capture count 0 with the first capture due immediately
(next_capture_time = loop_start_time, line 174) and the action succeeds
iff at least one capture iteration ran. -/
def execute_loop_action (interval : ℚ) (endSec : Nat) (tod : Nat → Nat)
    (wall : Nat → ℚ) (succ : Nat → Nat) (wallStart : ℚ) (photos0 : Nat)
    (fuel : Nat) : LoopOutcome :=
  if interval ≤ 0 then .invalidInterval
  else
    match loopRun endSec interval tod wall succ fuel ⟨0, photos0, wallStart, 0⟩ with
    | none => .outOfFuel
    | some st => .ran (decide (0 < st.captureCount)) st.captureCount st.photosTaken

/-- Helper: the loop body breaks exactly when the time of day has
reached the end time. -/
theorem loopStep_none_iff (endSec : Nat) (interval : ℚ) (tod : Nat → Nat)
    (wall : Nat → ℚ) (succ : Nat → Nat) (s : LoopState) :
    loopStep endSec interval tod wall succ s = none ↔ endSec ≤ tod s.poll := by
  rw [loopStep]
  split_ifs with h1 h2 <;> simp [h1]

/-- The per-device outcomes of an iteration only affect photosTaken: a
run with any success stream reaches the break with the same capture
count, schedule and poll position as a run whose captures all fail. -/
theorem loopRun_succ_independent (endSec : Nat) (interval : ℚ) (tod : Nat → Nat)
    (wall : Nat → ℚ) (succ : Nat → Nat) (fuel : Nat) :
    ∀ s : LoopState, ∀ p st, loopRun endSec interval tod wall succ fuel s = some st →
      ∃ st2, loopRun endSec interval tod wall (fun _ => 0) fuel
          ⟨s.captureCount, p, s.nextCapture, s.poll⟩ = some st2 ∧
        st2.captureCount = st.captureCount ∧ st2.poll = st.poll ∧
        st2.nextCapture = st.nextCapture ∧ st2.photosTaken = p := by
  induction fuel with
  | zero => intro s p st h; exact absurd h (by simp [loopRun])
  | succ n ih =>
    intro s p st h
    rw [loopRun] at h
    rcases hstep : loopStep endSec interval tod wall succ s with _ | s2
    · rw [hstep] at h
      injection h with h2
      subst h2
      have h1 : endSec ≤ tod s.poll :=
        (loopStep_none_iff endSec interval tod wall succ s).mp hstep
      refine ⟨⟨s.captureCount, p, s.nextCapture, s.poll⟩, ?_, rfl, rfl, rfl, rfl⟩
      rw [loopRun]
      have hz : loopStep endSec interval tod wall (fun _ => 0)
          ⟨s.captureCount, p, s.nextCapture, s.poll⟩ = none :=
        (loopStep_none_iff endSec interval tod wall (fun _ => 0) _).mpr h1
      rw [hz]
    · rw [hstep] at h
      rw [loopStep] at hstep
      split_ifs at hstep with h1 h2
      · injection hstep with h3
        subst h3
        obtain ⟨st2, hrun2, hc, hp, hn, hpt⟩ := ih _ p st h
        refine ⟨st2, ?_, hc, hp, hn, hpt⟩
        rw [loopRun]
        have hstep0 : loopStep endSec interval tod wall (fun _ => 0)
            ⟨s.captureCount, p, s.nextCapture, s.poll⟩ =
            some ⟨s.captureCount + 1, p + 0, s.nextCapture + interval, s.poll + 1⟩ := by
          rw [loopStep]
          dsimp only
          rw [if_neg h1, if_pos h2]
        rw [hstep0]
        dsimp only at hrun2 ⊢
        simpa using hrun2
      · injection hstep with h3
        subst h3
        obtain ⟨st2, hrun2, hc, hp, hn, hpt⟩ := ih _ p st h
        refine ⟨st2, ?_, hc, hp, hn, hpt⟩
        rw [loopRun]
        have hstep0 : loopStep endSec interval tod wall (fun _ => 0)
            ⟨s.captureCount, p, s.nextCapture, s.poll⟩ =
            some ⟨s.captureCount, p, s.nextCapture, s.poll + 1⟩ := by
          rw [loopStep]
          dsimp only
          rw [if_neg h1, if_neg h2]
        rw [hstep0]
        dsimp only at hrun2 ⊢
        simpa using hrun2

/-- C10: with a positive interval, a bounded loop action reports success
exactly when at least one capture iteration ran before the end time; the
verdict and capture count are independent of per-device capture
successes (an all-failed iteration is not an error and does not stop the
loop, which also continues whenever the time of day is still before the
end time); and a loop whose end time is already reached on entry
performs zero captures and is reported as failed. -/
theorem loop_action_success_iff (interval : ℚ) (endSec : Nat) (tod : Nat → Nat)
    (wall : Nat → ℚ) (succ : Nat → Nat) (w : ℚ) (p0 : Nat) (fuel : Nat)
    (hint : 0 < interval) :
    (∀ b cc pt, execute_loop_action interval endSec tod wall succ w p0 fuel =
        .ran b cc pt → (b = true ↔ 0 < cc)) ∧
    (∀ b cc pt, execute_loop_action interval endSec tod wall succ w p0 fuel =
        .ran b cc pt →
      execute_loop_action interval endSec tod wall (fun _ => 0) w p0 fuel =
        .ran b cc p0) ∧
    (∀ s : LoopState, tod s.poll < endSec →
      ∃ s2, loopStep endSec interval tod wall succ s = some s2 ∧
        s2.captureCount = s.captureCount +
          (if s.nextCapture ≤ wall s.poll then 1 else 0)) ∧
    (endSec ≤ tod 0 → 0 < fuel →
      execute_loop_action interval endSec tod wall succ w p0 fuel =
        .ran false 0 p0) := by
  have hnot : ¬ interval ≤ 0 := not_le.mpr hint
  have hran : ∀ (sc : Nat → Nat) st,
      loopRun endSec interval tod wall sc fuel ⟨0, p0, w, 0⟩ = some st →
      execute_loop_action interval endSec tod wall sc w p0 fuel =
        .ran (decide (0 < st.captureCount)) st.captureCount st.photosTaken := by
    intro sc st hr
    rw [execute_loop_action, if_neg hnot, hr]
  refine ⟨?_, ?_, ?_, ?_⟩
  · intro b cc pt h
    rcases hr : loopRun endSec interval tod wall succ fuel ⟨0, p0, w, 0⟩ with _ | st
    · have hx : execute_loop_action interval endSec tod wall succ w p0 fuel =
          .outOfFuel := by
        rw [execute_loop_action, if_neg hnot, hr]
      rw [hx] at h
      exact LoopOutcome.noConfusion h
    · rw [hran succ st hr] at h
      rw [LoopOutcome.ran.injEq] at h
      obtain ⟨hb, hcc, hpt⟩ := h
      subst hb
      subst hcc
      simp
  · intro b cc pt h
    rcases hr : loopRun endSec interval tod wall succ fuel ⟨0, p0, w, 0⟩ with _ | st
    · have hx : execute_loop_action interval endSec tod wall succ w p0 fuel =
          .outOfFuel := by
        rw [execute_loop_action, if_neg hnot, hr]
      rw [hx] at h
      exact LoopOutcome.noConfusion h
    · rw [hran succ st hr] at h
      rw [LoopOutcome.ran.injEq] at h
      obtain ⟨hb, hcc, hpt⟩ := h
      obtain ⟨st2, hrun2, hc, hp, hn, hpt2⟩ :=
        loopRun_succ_independent endSec interval tod wall succ fuel
          ⟨0, p0, w, 0⟩ p0 st hr
      dsimp only at hrun2
      rw [hran (fun _ => 0) st2 hrun2, hc, hpt2]
      subst hb
      subst hcc
      rfl
  · intro s hs
    rw [loopStep]
    rw [if_neg (by omega : ¬ endSec ≤ tod s.poll)]
    split_ifs with h2
    · exact ⟨_, rfl, by simp⟩
    · exact ⟨_, rfl, by simp⟩
  · intro hend hfuel
    obtain ⟨k, rfl⟩ := Nat.exists_eq_succ_of_ne_zero (by omega : fuel ≠ 0)
    rw [execute_loop_action, if_neg hnot, loopRun, loopStep]
    dsimp only
    rw [if_pos hend]
    rfl

/-- Witness for C10: end time already reached on entry gives a failed
action with zero captures. -/
theorem loop_action_success_iff_witness :
    execute_loop_action 1 5 (fun _ => 10) (fun _ => 0) (fun _ => 3) 0 0 1 =
      .ran false 0 0 :=
  (loop_action_success_iff 1 5 (fun _ => 10) (fun _ => 0) (fun _ => 3) 0 0 1
    (by norm_num)).2.2.2 (by norm_num) (by norm_num)

/-- Outcome of one pass of the polling loop in TimeCalculator.wait_until
(time_calculator.py lines 143-190): reached is a break declaring the
target reached (with the signed delta at that moment); proceedLate is
the break that logs the target as already passed and proceeds; sleep
keeps waiting, carrying the (possibly next-day-adjusted) remaining time,
whether a progress report is logged on this pass, and the sleep
duration. -/
inductive WaitStep
  | reached (delta : Int)
  | proceedLate (lateBy : Int)
  | sleep (remaining : Int) (progress : Bool) (sleepFor : ℚ)
deriving DecidableEq, Repr

/-- One pass of the while-loop body of wait_until (time_calculator.py
lines 156-190): remaining = target - now in seconds of day; a gap in
[-30, 0] is reached; below -30 the target either passed less than 12
hours (43200 s) ago (log and proceed) or is reinterpreted as tomorrow
by adding 86400; a now-non-positive remaining would also count as
reached; otherwise sleep check_interval, reporting progress when more
than progress_interval seconds remain and at least progress_interval
wall seconds elapsed since the last report. -/
def wait_poll (target now : Time) (check_interval : ℚ) (progress_interval : Int)
    (sinceProgress : ℚ) : WaitStep :=
  let now_seconds : Int := time_to_seconds now
  let target_seconds : Int := time_to_seconds target
  let remaining := target_seconds - now_seconds
  if -30 ≤ remaining ∧ remaining ≤ 0 then .reached remaining
  else if remaining < -30 then
    if |remaining| < 43200 then .proceedLate (-remaining)
    else
      let r2 := remaining + 86400
      if r2 ≤ 0 then .reached r2
      else .sleep r2
        (decide (progress_interval < r2) &&
          decide ((progress_interval : ℚ) ≤ sinceProgress)) check_interval
  else
    if remaining ≤ 0 then .reached remaining
    else .sleep remaining
      (decide (progress_interval < remaining) &&
        decide ((progress_interval : ℚ) ≤ sinceProgress)) check_interval

/-- C4: for valid times of day, one poll declares the target reached
exactly when the gap toSeconds(target) - toSeconds(now) lies in
[-30, 0]; a gap below -30 whose magnitude is under 12 hours proceeds
immediately; a gap below -30 by 12 hours or more is reinterpreted as
next-day (gap + 86400) and waiting continues with a sleep of the check
interval; a positive gap sleeps the check interval with a progress
report exactly when the gap exceeds the progress interval and at least
that much wall time elapsed since the last report. -/
theorem wait_poll_spec (target now : Time) (ci sp : ℚ) (g : Int)
    (hvt : target.Valid) (hvn : now.Valid)
    (hg : g = (time_to_seconds target : Int) - (time_to_seconds now : Int)) :
    ((∃ d, wait_poll target now ci 20 sp = .reached d) ↔ (-30 ≤ g ∧ g ≤ 0)) ∧
    (-30 ≤ g → g ≤ 0 → wait_poll target now ci 20 sp = .reached g) ∧
    (g < -30 → -g < 43200 → wait_poll target now ci 20 sp = .proceedLate (-g)) ∧
    (g < -30 → 43200 ≤ -g →
      wait_poll target now ci 20 sp =
        .sleep (g + 86400)
          (decide (20 < g + 86400) && decide ((20 : ℚ) ≤ sp)) ci ∧
      0 < g + 86400) ∧
    (0 < g →
      wait_poll target now ci 20 sp =
        .sleep g (decide (20 < g) && decide ((20 : ℚ) ≤ sp)) ci) := by
  have hb1 : time_to_seconds target < 86400 := time_to_seconds_lt _ hvt
  have hb2 : time_to_seconds now < 86400 := time_to_seconds_lt _ hvn
  subst hg
  rw [wait_poll]
  dsimp only
  refine ⟨?_, ?_, ?_, ?_, ?_⟩ <;>
    split_ifs with h1 h2 h3 h4 h5 <;>
      simp_all [abs_lt] <;> omega

/-- Witness for C4: target 10:00:00 polled at 10:00:10 (gap -10 s) is
declared reached. -/
theorem wait_poll_spec_witness :
    wait_poll ⟨10, 0, 0⟩ ⟨10, 0, 10⟩ (1/4) 20 0 = .reached (-10) :=
  (wait_poll_spec ⟨10, 0, 0⟩ ⟨10, 0, 10⟩ (1/4) 0 (-10) (by decide) (by decide)
    (by decide)).2.1 (by decide) (by decide)

end EclipseOZ
